import Mathlib

/-!
Verification of the keyboard-backlight daemon (src/kbd_backlight.cpp).

The development shallowly embeds the parts of the program that the
properties talk about:

* the key filter inside read_events (the ignored-key classification and
  the 2-event suppression window held in ignoreNextValues);
* one iteration of the read_events loop (classification, activity clock
  update, brightness restore);
* one iteration of the brightness_control loop (sleep computation with
  the unsigned subtraction of the source, the timeout fire that re-reads
  the control file into tmpBrightness and extinguishes the light);
* the startup flow of main (device discovery result, the writability
  check, the one-shot set-brightness path, reader spawning);
* a whole-system interleaving machine over the shared brightness pair
  (originalBrightness_, currentBrightness_), used for the global
  invariant.

Machine integers of the source (uint64_t brightness values, the unsigned
long timeout, the signed millisecond count) are modelled as Nat and Int
with explicit reduction modulo 2 to the 64th where the source can wrap.
Fallible operations (file_read_uint64, file_write_uint64, read, open and
the unguarded std::map find) are modelled with Option and with explicit
success flags whose value the source ignores.
-/

namespace KbdBacklight

/-- Event type constant EV_MSC from linux input headers. -/
def EV_MSC : Nat := 4

/-- Event code constant MSC_SCAN from linux input headers. -/
def MSC_SCAN : Nat := 4

/-- One decoded struct input_event: type, code, value fields used by
read_events. -/
structure InputEvent where
  type : Nat
  code : Nat
  value : Int
deriving Repr, DecidableEq

/-- The zero-initialized event buffer, struct input_event ie = \x7b\x7d. -/
def zeroEvent : InputEvent := ⟨0, 0, 0⟩

/-- An event is a scan-code event when it has type EV_MSC and code
MSC_SCAN, the condition of the first branch of the filter. -/
def isScanEvent (e : InputEvent) : Bool :=
  e.type = EV_MSC && e.code = MSC_SCAN

/-- Shorthand for the scan-code event with a given value. -/
def scanEvent (v : Int) : InputEvent := ⟨EV_MSC, MSC_SCAN, v⟩

/-- The std::map of ignored key codes as an association list; mapFind is
std::map::find, returning none where find returns end(). -/
def mapFind (m : List (Int × Bool)) (k : Int) : Option Bool :=
  match m with
  | [] => none
  | (a, b) :: rest => if a = k then some b else mapFind rest k

/-- One classification step of the key filter in read_events
(lines 292 to 308 of the source).  The state is the ignoreNextValues
counter.  The result pairs the correctKey boolean with the new counter.
The source dereferences ignoredKeys.find(ie.value) without an end()
check; the embedding returns none exactly where that dereference has no
defined value, namely for a scan-code event whose value is not a key of
the map. -/
def keyFilterStep (ignoredKeys : List (Int × Bool)) (ignoreNextValues : Nat)
    (ie : InputEvent) : Option (Bool × Nat) :=
  if isScanEvent ie then
    match mapFind ignoredKeys ie.value with
    | none => none
    | some b =>
      if b then some (false, 2)
      else some (true, ignoreNextValues)
  else if ignoreNextValues > 0 then
    some (false, ignoreNextValues - 1)
  else
    some (true, ignoreNextValues)

/-- Run the key filter over a list of events, collecting the
classification of each event and the final counter. -/
def keyFilterRun (ignoredKeys : List (Int × Bool)) (st : Nat) :
    List InputEvent → Option (List Bool × Nat)
  | [] => some ([], st)
  | e :: rest =>
    match keyFilterStep ignoredKeys st e with
    | none => none
    | some (c, st') =>
      match keyFilterRun ignoredKeys st' rest with
      | none => none
      | some (cs, stf) => some (c :: cs, stf)

/-- A sample ignored-key map holding the single scan code 42, as built
by parse_opts from the option -k 42. -/
def sampleIgnored : List (Int × Bool) := [(42, true)]

/-- A sample non-scan event (an EV_KEY key press), used as an arbitrary
follow-on event. -/
def fillerEvent : InputEvent := ⟨1, 30, 1⟩

/-- A scan-code event whose value carries the ignore flag in the map is
classified as non-activity and re-arms the window to 2, whatever the
counter held before. -/
theorem keyFilterStep_scan_ignored (ik : List (Int × Bool)) (st : Nat)
    (v : Int) (h : mapFind ik v = some true) :
    keyFilterStep ik st (scanEvent v) = some (false, 2) := by
  simp [keyFilterStep, scanEvent, isScanEvent, EV_MSC, MSC_SCAN, h]

/-- An event that is not a scan-code event is swallowed while the window
is armed (decrementing the counter) and is activity otherwise. -/
theorem keyFilterStep_not_scan (ik : List (Int × Bool)) (st : Nat)
    (e : InputEvent) (h : isScanEvent e = false) :
    keyFilterStep ik st e =
      if 0 < st then some (false, st - 1) else some (true, st) := by
  unfold keyFilterStep
  rw [h]
  simp

end KbdBacklight

namespace KbdBacklight

/-- C10: a scan-code event whose value is not in the ignored-key map
makes the unguarded find dereference undefined: keyFilterStep returns
none there, and (second conjunct) this branch is reachable, for
instance with the empty ignored-key map. -/
theorem c10_unguarded_lookup (ik : List (Int × Bool)) (st : Nat) (v : Int)
    (h : mapFind ik v = none) :
    keyFilterStep ik st (scanEvent v) = none ∧
      keyFilterStep [] 0 (scanEvent 0) = none := by
  constructor
  · simp [keyFilterStep, scanEvent, isScanEvent, EV_MSC, MSC_SCAN, h]
  · simp [keyFilterStep, scanEvent, isScanEvent, EV_MSC, MSC_SCAN, mapFind]

/-- Witness for c10_unguarded_lookup at the empty map and value 0. -/
theorem c10_unguarded_lookup_witness :
    keyFilterStep [] 0 (scanEvent 0) = none ∧
      keyFilterStep [] 0 (scanEvent 0) = none :=
  c10_unguarded_lookup [] 0 0 rfl

end KbdBacklight

namespace KbdBacklight

/-- C4 counterexample: the suppression window is not decremented by
every event.  With ignored scan code 42, the counter armed at 1 and a
second ignored scan code arriving, the classifier returns non-activity
but resets the counter to 2 instead of decrementing it to 0; and on the
concrete sequence scan 42, scan 42, filler, filler the fourth event is
classified as non-activity, although a filler event with the counter at
zero is classified as activity (last conjunct), so the fourth event is
not classified normally. -/
theorem c4_counterexample :
    keyFilterStep sampleIgnored 1 (scanEvent 42) = some (false, 2) ∧
    keyFilterRun sampleIgnored 0
        [scanEvent 42, scanEvent 42, fillerEvent, fillerEvent] =
      some ([false, false, false, false], 0) ∧
    keyFilterStep sampleIgnored 0 fillerEvent = some (true, 0) := by
  refine ⟨?_, ?_, ?_⟩ <;> decide

/-- C4 amended: an ignored scan code is classified as non-activity and
arms a 2-event suppression window; while the window is armed every
subsequent event that is not a scan-code event is classified as
non-activity and decrements the counter; a scan-code event instead goes
through the scan-code branch again (an ignored one re-arms the window
to 2 without decrementing).  Hence an ignored scan code followed
immediately by exactly 2 events that are not scan-code events yields 3
consecutive non-activity results and a 4th non-scan event is
classified normally (as activity). -/
theorem c4_amended_suppression :
    (∀ (ik : List (Int × Bool)) (st : Nat) (e : InputEvent),
        isScanEvent e = false → 0 < st →
        keyFilterStep ik st e = some (false, st - 1)) ∧
    (∀ (ik : List (Int × Bool)) (st : Nat) (v : Int),
        mapFind ik v = some true →
        keyFilterStep ik st (scanEvent v) = some (false, 2)) ∧
    (∀ (ik : List (Int × Bool)) (v : Int) (f1 f2 f3 : InputEvent),
        mapFind ik v = some true →
        isScanEvent f1 = false → isScanEvent f2 = false →
        isScanEvent f3 = false →
        keyFilterRun ik 0 [scanEvent v, f1, f2, f3] =
          some ([false, false, false, true], 0)) := by
  refine ⟨?_, ?_, ?_⟩
  · intro ik st e he hst
    rw [keyFilterStep_not_scan ik st e he, if_pos hst]
  · intro ik st v h
    exact keyFilterStep_scan_ignored ik st v h
  · intro ik v f1 f2 f3 h h1 h2 h3
    simp [keyFilterRun, keyFilterStep_scan_ignored ik 0 v h,
      keyFilterStep_not_scan, h1, h2, h3]

/-- Witness for c4_amended_suppression at the sample ignored-key map,
scan code 42 and three filler events. -/
theorem c4_amended_suppression_witness :
    keyFilterRun sampleIgnored 0
        [scanEvent 42, fillerEvent, fillerEvent, fillerEvent] =
      some ([false, false, false, true], 0) :=
  c4_amended_suppression.2.2 sampleIgnored 42 fillerEvent fillerEvent
    fillerEvent (by decide) (by decide) (by decide) (by decide)

/-- C5: an ignored scan code arriving while the window is already armed
resets the counter to 2 whatever its value was (last write wins), and
on the concrete shape scan, scan, three non-scan events, exactly the 2
events after the second scan are suppressed and the next one is
classified normally, so suppression is not additive. -/
theorem c5_reset_not_additive :
    (∀ (ik : List (Int × Bool)) (c : Nat) (v : Int),
        mapFind ik v = some true →
        keyFilterStep ik c (scanEvent v) = some (false, 2)) ∧
    (∀ (ik : List (Int × Bool)) (v : Int) (f1 f2 f3 : InputEvent),
        mapFind ik v = some true →
        isScanEvent f1 = false → isScanEvent f2 = false →
        isScanEvent f3 = false →
        keyFilterRun ik 0 [scanEvent v, scanEvent v, f1, f2, f3] =
          some ([false, false, false, false, true], 0)) := by
  refine ⟨?_, ?_⟩
  · intro ik c v h
    exact keyFilterStep_scan_ignored ik c v h
  · intro ik v f1 f2 f3 h h1 h2 h3
    simp [keyFilterRun, keyFilterStep_scan_ignored _ _ v h,
      keyFilterStep_not_scan, h1, h2, h3]

/-- Witness for c5_reset_not_additive: two ignored scan codes 42 in a
row followed by three filler events. -/
theorem c5_reset_not_additive_witness :
    keyFilterRun sampleIgnored 0
        [scanEvent 42, scanEvent 42, fillerEvent, fillerEvent,
          fillerEvent] =
      some ([false, false, false, false, true], 0) :=
  c5_reset_not_additive.2 sampleIgnored 42 fillerEvent fillerEvent
    fillerEvent (by decide) (by decide) (by decide) (by decide)

end KbdBacklight

namespace KbdBacklight

/-- The shared in-memory brightness pair: originalBrightness_ and
currentBrightness_ (uint64_t globals of the source; the values in use
are far below 2 to the 64, so Nat is the faithful carrier). -/
structure BState where
  original : Nat
  current : Nat
deriving Repr, DecidableEq

/-- The restore action of read_events on an activity event (lines 318
to 323): when current differs from original, write original to the
control file and set current to original; the result pairs the new
state with the value written to the control file, if any.  The returned
write is a request whose success the source never inspects. -/
def readerRestore (st : BState) : BState × Option Nat :=
  if st.current ≠ st.original then
    (⟨st.original, st.original⟩, some st.original)
  else
    (st, none)

/-- Outcome of the blocking read(2) call in one read_events iteration.
ok e is a positive-length read filling the buffer with e; zeroLen is
rd equal to 0; error is rd negative, in which case the buffer keeps its
zero initialization. -/
inductive ReadResult where
  | ok (e : InputEvent)
  | zeroLen
  | error
deriving Repr, DecidableEq

/-- Observable outcome of one read_events iteration: the brightness
pair, the filter counter, whether lastEvent_ was set to now, and the
value written to the control file, if any. -/
structure ReaderOut where
  state : BState
  filt : Nat
  clockSet : Bool
  write : Option Nat
deriving Repr, DecidableEq

/-- Processing of one decoded event by read_events (lines 292 to 324):
classify through the key filter, and on correctKey stamp the activity
clock and restore the backlight.  none marks the undefined unguarded
map dereference. -/
def readerProcess (ik : List (Int × Bool)) (st : BState) (filt : Nat)
    (e : InputEvent) : Option ReaderOut :=
  match keyFilterStep ik filt e with
  | none => none
  | some (correct, filt') =>
    if correct then
      let r := readerRestore st
      some ⟨r.1, filt', true, r.2⟩
    else
      some ⟨st, filt', false, none⟩

/-- One iteration of the read_events loop (lines 283 to 325).  The
loop guard is rd different from 0, so a zero-length read skips the
body, while both a filled buffer and a failed read (negative rd, buffer
still zero-initialized) are processed.  writeOk is the result of a
file_write_uint64 performed during the iteration; the source discards
that result, and the definition accordingly ignores it. -/
def readerIter (ik : List (Int × Bool)) (st : BState) (filt : Nat)
    (r : ReadResult) (writeOk : Bool) : Option ReaderOut :=
  match r with
  | .zeroLen => some ⟨st, filt, false, none⟩
  | .ok e => readerProcess ik st filt e
  | .error => readerProcess ik st filt zeroEvent

end KbdBacklight

namespace KbdBacklight

/-- C3: whenever the filter classifies the read event as activity, the
reader sets the shared activity clock, ends with current equal to
original, and writes original to the control file exactly when current
differed from original beforehand; repeated activity with current
already equal to original therefore performs no write. -/
theorem c3_activity_restore (ik : List (Int × Bool)) (st : BState)
    (filt filt' : Nat) (e : InputEvent) (wOk : Bool)
    (h : keyFilterStep ik filt e = some (true, filt')) :
    readerIter ik st filt (.ok e) wOk =
      some ⟨⟨st.original, st.original⟩, filt', true,
        if st.current = st.original then none else some st.original⟩ := by
  cases st with
  | mk o c =>
    simp only [readerIter, readerProcess, h, if_pos, readerRestore]
    by_cases hc : c = o
    · subst hc
      simp
    · simp [hc]

/-- Witness for c3_activity_restore: a key event on an empty ignored
set, with the backlight off (current 0, original 5), produces a restore
write of 5; applied a second time from the restored state it produces
no write. -/
theorem c3_activity_restore_witness :
    readerIter [] ⟨5, 0⟩ 0 (.ok fillerEvent) true =
      some ⟨⟨5, 5⟩, 0, true, some 5⟩ ∧
    readerIter [] ⟨5, 5⟩ 0 (.ok fillerEvent) true =
      some ⟨⟨5, 5⟩, 0, true, none⟩ := by
  constructor
  · exact c3_activity_restore [] ⟨5, 0⟩ 0 0 fillerEvent true (by decide)
  · exact c3_activity_restore [] ⟨5, 5⟩ 0 0 fillerEvent true (by decide)

end KbdBacklight

namespace KbdBacklight

/-- Observable outcome of the timeout branch of one brightness_control
iteration: the brightness pair, the value of the local tmpBrightness
variable, the value written to the control file (if any), and whether
lastEvent_ was reset to now. -/
structure CtrlOut where
  state : BState
  tmp : Nat
  write : Option Nat
  clockReset : Bool
deriving Repr, DecidableEq

/-- The timeout fire of brightness_control (lines 260 to 276).
readRes is the outcome of file_read_uint64 on the control path: some v
stores v into tmpBrightness, none (a failed read) leaves tmpBrightness
at its previous value tmp.  When the resulting tmpBrightness differs
from 0 the controller records it as the new original, sets current to
0 and writes 0 to the control file; otherwise nothing is written and
original is unchanged.  In both cases lastEvent_ is reset to now.
writeOk is the discarded result of the file_write_uint64 call. -/
def controllerFire (st : BState) (tmp : Nat) (readRes : Option Nat)
    (writeOk : Bool) : CtrlOut :=
  let t := readRes.getD tmp
  if t ≠ 0 then ⟨⟨t, 0⟩, t, some 0, true⟩
  else ⟨st, t, none, true⟩

/-- The decision part of one brightness_control iteration after the
sleep: fire when the elapsed milliseconds have reached the timeout,
otherwise change nothing (lines 256 to 276). -/
def controllerIter (timeoutMs passedMs : Nat) (st : BState) (tmp : Nat)
    (readRes : Option Nat) (writeOk : Bool) : CtrlOut :=
  if timeoutMs ≤ passedMs then controllerFire st tmp readRes writeOk
  else ⟨st, tmp, none, false⟩

end KbdBacklight

namespace KbdBacklight

/-- C2: whenever the elapsed idle time has reached the timeout, the
controller re-reads the control file; a successfully read non-zero
value v becomes the new original, current is set to 0 and 0 is written
to the control file, so an external non-zero write before the fire is
captured as the new original before zeroing; a successfully read 0
causes no write and leaves the whole brightness pair, original
included, unchanged. -/
theorem c2_fire_reread (t p : Nat) (st : BState) (tmp : Nat) (v : Nat)
    (wOk : Bool) (hfire : t ≤ p) :
    (v ≠ 0 →
      controllerIter t p st tmp (some v) wOk = ⟨⟨v, 0⟩, v, some 0, true⟩) ∧
    controllerIter t p st tmp (some 0) wOk = ⟨st, 0, none, true⟩ := by
  constructor
  · intro hv
    simp [controllerIter, hfire, controllerFire, hv]
  · simp [controllerIter, hfire, controllerFire]

/-- Witness for c2_fire_reread: timeout 15000 ms, elapsed 15000 ms,
state original 5 current 5, external value 3 read at fire time. -/
theorem c2_fire_reread_witness :
    controllerIter 15000 15000 ⟨5, 5⟩ 5 (some 3) true =
        ⟨⟨3, 0⟩, 3, some 0, true⟩ ∧
      controllerIter 15000 15000 ⟨5, 5⟩ 5 (some 0) true =
        ⟨⟨5, 5⟩, 0, none, true⟩ :=
  ⟨(c2_fire_reread 15000 15000 ⟨5, 5⟩ 5 3 true (by decide)).1 (by decide),
    (c2_fire_reread 15000 15000 ⟨5, 5⟩ 5 0 true (by decide)).2⟩

end KbdBacklight

namespace KbdBacklight

/-- C6 counterexample: a failed device read is not skipped.  The read
guard of the source is rd different from 0, so a negative rd enters the
body with the zero-initialized event buffer; with no suppression window
armed (counter 0) and the backlight off (original 5, current 0) this is
classified as activity: the clock is stamped and original is written to
the control file, against the claim that a failed read produces no
activity and no write. -/
theorem c6_counterexample :
    readerIter [] ⟨5, 0⟩ 0 .error true =
      some ⟨⟨5, 5⟩, 0, true, some 5⟩ := by
  decide

/-- C6 amended: transient control-file errors are absorbed and a
zero-length device read is skipped, but an error-returning device read
is processed as a zero-initialized event.  Conjuncts: the reader
outcome never depends on the success of the control-file write; a
zero-length read changes nothing, classifies nothing and writes
nothing; a failed device read while the suppression window is armed is
swallowed like any non-scan event; a failed device read with no window
armed is classified as activity, stamps the clock and writes original
exactly when current differs from original; a failed control-file read
in the controller is absorbed by firing on the stale tmpBrightness
value instead. -/
theorem c6_amended_transient_errors :
    (∀ (ik : List (Int × Bool)) (st : BState) (filt : Nat)
        (r : ReadResult) (w1 w2 : Bool),
        readerIter ik st filt r w1 = readerIter ik st filt r w2) ∧
    (∀ (ik : List (Int × Bool)) (st : BState) (filt : Nat) (wOk : Bool),
        readerIter ik st filt .zeroLen wOk = some ⟨st, filt, false, none⟩) ∧
    (∀ (ik : List (Int × Bool)) (st : BState) (filt : Nat) (wOk : Bool),
        0 < filt →
        readerIter ik st filt .error wOk =
          some ⟨st, filt - 1, false, none⟩) ∧
    (∀ (ik : List (Int × Bool)) (st : BState) (wOk : Bool),
        readerIter ik st 0 .error wOk =
          some ⟨⟨st.original, st.original⟩, 0, true,
            if st.current = st.original then none else some st.original⟩) ∧
    (∀ (st : BState) (tmp : Nat) (wOk : Bool),
        controllerFire st tmp none wOk =
          if tmp = 0 then ⟨st, tmp, none, true⟩
          else ⟨⟨tmp, 0⟩, tmp, some 0, true⟩) := by
  refine ⟨fun ik st filt r w1 w2 => rfl, fun ik st filt wOk => rfl,
    ?_, ?_, ?_⟩
  · intro ik st filt wOk hf
    simp [readerIter, readerProcess,
      keyFilterStep_not_scan ik filt zeroEvent (by decide), hf]
  · intro ik st wOk
    cases st with
    | mk o c =>
      simp only [readerIter, readerProcess,
        keyFilterStep_not_scan ik 0 zeroEvent (by decide)]
      by_cases hc : c = o
      · subst hc
        simp [readerRestore]
      · simp [readerRestore, hc]
  · intro st tmp wOk
    by_cases ht : tmp = 0
    · simp [controllerFire, ht]
    · simp [controllerFire, ht]

/-- Witness for c6_amended_transient_errors: the armed-window conjunct
applied at counter 1 with the backlight off. -/
theorem c6_amended_transient_errors_witness :
    readerIter [] ⟨5, 0⟩ 1 .error true = some ⟨⟨5, 0⟩, 0, false, none⟩ :=
  c6_amended_transient_errors.2.2.1 [] ⟨5, 0⟩ 1 true (by decide)

end KbdBacklight

namespace KbdBacklight

/-- 2 to the 64, the modulus of unsigned long on the target platform. -/
def U64 : Nat := 2 ^ 64

/-- Unsigned 64-bit subtraction: the value of the C expression
timeoutMs - passedMs.count() after the usual arithmetic conversions
promote both operands to unsigned long. -/
def wrapSub64 (a b : Nat) : Nat := (a % U64 + (U64 - b % U64)) % U64

/-- Conversion of an unsigned 64-bit value to the signed 64-bit
representation type of std::chrono::milliseconds (twos complement on
the target platform). -/
def toSigned64 (u : Nat) : Int :=
  if u % U64 < 2 ^ 63 then ((u % U64 : Nat) : Int)
  else ((u % U64 : Nat) : Int) - (U64 : Int)

/-- The count of the sleepTime duration computed at line 249 of the
source: milliseconds(timeoutMs - passedMs.count()). -/
def sleepCount (timeoutMs passedMs : Nat) : Int :=
  toSigned64 (wrapSub64 timeoutMs passedMs)

/-- The sleep decision of one brightness_control iteration (lines 248
to 254): when lastEvent_ lies in the past, the controller calls
sleep_for with the computed duration unless its count is exactly 0.
The result is the duration passed to sleep_for, or none when no
sleep_for call is made. -/
def controllerSleep (lastEventInPast : Bool) (timeoutMs passedMs : Nat) :
    Option Int :=
  if lastEventInPast then
    if sleepCount timeoutMs passedMs ≠ 0 then
      some (sleepCount timeoutMs passedMs)
    else none
  else none

end KbdBacklight

namespace KbdBacklight

/-- C7 counterexample: the sleep duration is not clamped to zero when
the elapsed time has grown past the timeout.  With timeout 1000 ms and
elapsed 1500 ms the unsigned difference wraps to 2 to the 64 minus 500,
the signed millisecond count is -500, and since that count differs
from 0 the controller calls sleep_for with the negative wrapped
duration instead of a clamped zero. -/
theorem c7_counterexample :
    wrapSub64 1000 1500 = 2 ^ 64 - 500 ∧
      sleepCount 1000 1500 = -500 ∧
      controllerSleep true 1000 1500 = some (-500) := by
  refine ⟨?_, ?_, ?_⟩ <;> norm_num [wrapSub64, sleepCount, toSigned64,
    controllerSleep, U64]

/-- C7 amended: when the elapsed idle time is below the timeout the
computed sleep duration is exactly timeout minus elapsed and positive;
when elapsed equals the timeout the zero test suppresses the sleep
call; but when elapsed has grown past the timeout the duration is not
clamped: the unsigned difference wraps around and is reinterpreted as
the negative count timeout minus elapsed, which is nonzero, so
sleep_for is invoked with a duration derived from the wrapped
difference (a non-positive duration, hence an immediate return at run
time).  Stated for values below 2 to the 63, the range in which the
source quantities live. -/
theorem c7_amended_sleep (t p : Nat) (ht : t < 2 ^ 63) (hp : p < 2 ^ 63) :
    (p < t →
      controllerSleep true t p = some ((t : Int) - (p : Int)) ∧
        0 < (t : Int) - (p : Int)) ∧
    (p = t → controllerSleep true t p = none) ∧
    (t < p →
      controllerSleep true t p = some ((t : Int) - (p : Int)) ∧
        (t : Int) - (p : Int) < 0) := by
  refine ⟨?_, ?_, ?_⟩
  · intro hlt
    have hs : sleepCount t p = (t : Int) - (p : Int) := by
      unfold sleepCount toSigned64 wrapSub64 U64
      split <;> omega
    have hne : (t : Int) - (p : Int) ≠ 0 := by omega
    exact ⟨by simp [controllerSleep, hs, hne], by omega⟩
  · intro heq
    subst heq
    have hs : sleepCount p p = 0 := by
      unfold sleepCount toSigned64 wrapSub64 U64
      split <;> omega
    simp [controllerSleep, hs]
  · intro hlt
    have hs : sleepCount t p = (t : Int) - (p : Int) := by
      unfold sleepCount toSigned64 wrapSub64 U64
      split <;> omega
    have hne : (t : Int) - (p : Int) ≠ 0 := by omega
    exact ⟨by simp [controllerSleep, hs, hne], by omega⟩

/-- Witness for c7_amended_sleep at timeout 15000 ms: elapsed 14000
sleeps for 1000 ms, elapsed 15000 skips the sleep, elapsed 16000 calls
sleep_for with the negative count -1000. -/
theorem c7_amended_sleep_witness :
    controllerSleep true 15000 14000 = some 1000 ∧
      controllerSleep true 15000 15000 = none ∧
      controllerSleep true 15000 16000 = some (-1000) := by
  refine ⟨?_, ?_, ?_⟩
  · exact ((c7_amended_sleep 15000 14000 (by norm_num)
      (by norm_num)).1 (by norm_num)).1
  · exact (c7_amended_sleep 15000 15000 (by norm_num)
      (by norm_num)).2.1 rfl
  · exact ((c7_amended_sleep 15000 16000 (by norm_num)
      (by norm_num)).2.2 (by norm_num)).1

end KbdBacklight

namespace KbdBacklight

/-- open_device (lines 221 to 230): open the path read-only; on failure
print the error and return -1.  openFn abstracts the open(2) system
call, yielding the descriptor or none on failure. -/
def open_device (openFn : String → Option Nat) (path : String) : Int :=
  match openFn path with
  | some fd => (fd : Int)
  | none => -1

/-- open_devices (lines 232 to 238): open every discovered input device
and collect every return value of open_device, the -1 sentinels
included, in order. -/
def open_devices (openFn : String → Option Nat)
    (input_devices : List String) : List Int :=
  input_devices.map (open_device openFn)

/-- The startup environment of main: the discovered input device paths,
whether the brightness control path exists, the outcome of reading it,
the outcome of the probe write, and the open(2) behaviour. -/
structure StartupEnv where
  inputDevices : List String
  controlExists : Bool
  controlReadVal : Option Nat
  controlWriteOk : Bool
  openFn : String → Option Nat

/-- is_brightness_writable (lines 341 to 355): fail when the path does
not exist, read the current value into originalBrightness_, write it
back; on success return the value read. -/
def is_brightness_writable (env : StartupEnv) : Option Nat :=
  if env.controlExists then
    match env.controlReadVal with
    | none => none
    | some v => if env.controlWriteOk then some v else none
  else none

/-- How a run of main ends: a failure exit, the one-shot set-brightness
exit carrying the value written, or the monitoring run carrying the
descriptor list for which read_events loops are spawned (one per
element) and the initial brightness pair. -/
inductive MainResult where
  | exitFailure
  | oneShotExit (written : Nat)
  | daemonRun (readerFds : List Int) (original current : Nat)
deriving Repr, DecidableEq

/-- The startup flow of main after option parsing (lines 467 to 529):
exit with failure when no input device was found, or when the control
path is missing or not read-writable; otherwise, when a non-negative
set-brightness value was requested, write it to the control file and
exit 0 at once; otherwise initialize current from original, open all
devices, spawn one read_events loop per descriptor and enter
brightness_control.  The second component lists the values written to
the control path during startup, in order: the write-back probe of
is_brightness_writable, then the one-shot value if requested. -/
def mainFlow (env : StartupEnv) (setBrightness : Int) :
    MainResult × List Nat :=
  if env.inputDevices.isEmpty then (.exitFailure, [])
  else
    match env.controlReadVal, env.controlExists, env.controlWriteOk with
    | some orig, true, true =>
      if 0 ≤ setBrightness then
        (.oneShotExit setBrightness.toNat, [orig, setBrightness.toNat])
      else
        (.daemonRun (open_devices env.openFn env.inputDevices) orig orig,
          [orig])
    | some orig, true, false => (.exitFailure, [orig])
    | _, _, _ => (.exitFailure, [])

end KbdBacklight

namespace KbdBacklight

/-- C9: with at least one device, an existing writable control path and
a non-negative requested brightness, main writes the requested integer
to the control file as its last control write and exits with status 0
at once: the result is oneShotExit, so no reader loop is spawned and
brightness_control is never entered, and the last value written is the
requested one. -/
theorem c9_one_shot (env : StartupEnv) (sb : Int) (orig : Nat)
    (hdev : env.inputDevices ≠ [])
    (hex : env.controlExists = true)
    (hrd : env.controlReadVal = some orig)
    (hwr : env.controlWriteOk = true)
    (hsb : 0 ≤ sb) :
    mainFlow env sb = (.oneShotExit sb.toNat, [orig, sb.toNat]) ∧
      (mainFlow env sb).2.getLast? = some sb.toNat := by
  have hne : env.inputDevices.isEmpty = false := by
    cases hd : env.inputDevices with
    | nil => exact absurd hd hdev
    | cons a l => simp [hd]
  have h1 : mainFlow env sb = (.oneShotExit sb.toNat, [orig, sb.toNat]) := by
    unfold mainFlow
    rw [hne, hrd, hex, hwr]
    simp [hsb]
  exact ⟨h1, by rw [h1]; rfl⟩

/-- Witness for c9_one_shot: one keyboard, control path existing and
writable with current value 2, requested brightness 1. -/
theorem c9_one_shot_witness :
    mainFlow ⟨["/dev/input/event3"], true, some 2, true, fun _ => none⟩ 1 =
        (.oneShotExit 1, [2, 1]) ∧
      (mainFlow ⟨["/dev/input/event3"], true, some 2, true,
          fun _ => none⟩ 1).2.getLast? = some 1 :=
  c9_one_shot ⟨["/dev/input/event3"], true, some 2, true, fun _ => none⟩
    1 2 (by simp) rfl rfl rfl (by norm_num)

end KbdBacklight

namespace KbdBacklight

/-- The open(2) behaviour used in the C8 counterexample: the keyboard
opens as descriptor 3, the mice path fails to open. -/
def failOpenFn : String → Option Nat :=
  fun p => if p = "/dev/input/event3" then some 3 else none

/-- C8 counterexample: with two discovered devices of which the second
cannot be opened, open_devices returns the list 3, -1, main reaches
daemonRun with that full list, and a read_events loop is spawned for
the sentinel -1 as well: the unopenable device is not dropped from the
monitored set. -/
theorem c8_counterexample :
    open_devices failOpenFn ["/dev/input/event3", "/dev/input/mice"] =
        [3, -1] ∧
      mainFlow ⟨["/dev/input/event3", "/dev/input/mice"], true, some 2,
          true, failOpenFn⟩ (-1) =
        (.daemonRun [3, -1] 2 2, [2]) ∧
      (-1) ∈ open_devices failOpenFn
          ["/dev/input/event3", "/dev/input/mice"] := by
    refine ⟨?_, ?_, ?_⟩
    · simp [open_devices, open_device, failOpenFn]
    · simp [mainFlow, open_devices, open_device, failOpenFn]
    · simp [open_devices, open_device, failOpenFn]

/-- C8 amended: a device path that fails to open is recorded as the
sentinel descriptor -1, which open_devices keeps, so the descriptor
list always has one entry per discovered device and contains -1 for
the failed one; the process does not abort: with the control path
checks passing and no one-shot request, main still reaches daemonRun
and spawns a read_events loop for every descriptor, the sentinel
included. -/
theorem c8_amended_not_dropped :
    (∀ (openFn : String → Option Nat) (paths : List String) (p : String),
        p ∈ paths → openFn p = none →
        (-1) ∈ open_devices openFn paths ∧
          (open_devices openFn paths).length = paths.length) ∧
    (∀ (env : StartupEnv) (sb : Int) (orig : Nat),
        env.inputDevices ≠ [] → env.controlExists = true →
        env.controlReadVal = some orig → env.controlWriteOk = true →
        sb < 0 →
        mainFlow env sb =
          (.daemonRun (open_devices env.openFn env.inputDevices) orig orig,
            [orig])) := by
  constructor
  · intro openFn paths p hmem hfail
    constructor
    · have : open_device openFn p = -1 := by
        simp [open_device, hfail]
      exact this ▸ List.mem_map_of_mem (open_device openFn) hmem
    · simp [open_devices]
  · intro env sb orig hdev hex hrd hwr hsb
    have hne : env.inputDevices.isEmpty = false := by
      cases hd : env.inputDevices with
      | nil => exact absurd hd hdev
      | cons a l => simp [hd]
    unfold mainFlow
    rw [hne, hrd, hex, hwr]
    simp [show ¬(0 ≤ sb) by omega]

/-- Witness for c8_amended_not_dropped: the environment of the
counterexample, with the mice path failing to open and no one-shot
request. -/
theorem c8_amended_not_dropped_witness :
    ((-1) ∈ open_devices failOpenFn
          ["/dev/input/event3", "/dev/input/mice"] ∧
        (open_devices failOpenFn
            ["/dev/input/event3", "/dev/input/mice"]).length =
          (["/dev/input/event3", "/dev/input/mice"] : List String).length) ∧
      mainFlow ⟨["/dev/input/event3", "/dev/input/mice"], true, some 2,
          true, failOpenFn⟩ (-1) =
        (.daemonRun (open_devices failOpenFn
            ["/dev/input/event3", "/dev/input/mice"]) 2 2, [2]) :=
  ⟨c8_amended_not_dropped.1 failOpenFn
      ["/dev/input/event3", "/dev/input/mice"] "/dev/input/mice"
      (by simp) (by simp [failOpenFn]),
    c8_amended_not_dropped.2
      ⟨["/dev/input/event3", "/dev/input/mice"], true, some 2, true,
        failOpenFn⟩ (-1) 2 (by simp) rfl rfl rfl (by norm_num)⟩

end KbdBacklight

namespace KbdBacklight

/-- One abstract step of the running system, interleaving the
concurrent contexts at the granularity of their effects on the shared
brightness pair.  readerActivity is a read_events iteration whose event
was classified as activity; readerIdle covers every step that leaves
the brightness pair untouched (zero-length reads, suppressed events,
controller iterations below the timeout); ctrlFire is a timeout fire of
brightness_control carrying the outcome of its control-file re-read. -/
inductive SysEvent where
  | readerActivity
  | readerIdle
  | ctrlFire (readRes : Option Nat)
deriving Repr, DecidableEq

/-- Effect of one system step on the pair of shared brightness state
and controller-local tmpBrightness. -/
def sysStep (s : BState × Nat) (e : SysEvent) : BState × Nat :=
  match e with
  | .readerActivity => ((readerRestore s.1).1, s.2)
  | .readerIdle => s
  | .ctrlFire r =>
    let o := controllerFire s.1 s.2 r true
    (o.state, o.tmp)

/-- Run the system from its startup state: is_brightness_writable read
the value v into originalBrightness_, main copied it into
currentBrightness_ (line 504), and brightness_control initialized
tmpBrightness from currentBrightness_ (line 242). -/
def sysRun (v : Nat) (tr : List SysEvent) : BState × Nat :=
  tr.foldl sysStep (⟨v, v⟩, v)

/-- The control-file value observed by a step, if any: only a fire
whose re-read succeeded observes a value. -/
def obsOf : SysEvent → Option Nat
  | .ctrlFire (some u) => some u
  | _ => none

/-- All values observed from the control file during a run: the startup
read followed by the successful fire-time re-reads, in order. -/
def obsList (v : Nat) (tr : List SysEvent) : List Nat :=
  v :: tr.filterMap obsOf

/-- Accumulate the most recent non-zero value of a stream. -/
def nzStep (a x : Nat) : Nat := if x = 0 then a else x

/-- The most recently observed non-zero value of a list of observed
values; 0 when the list is empty, and the startup value when every
later observation was 0. -/
def lastNonZero (l : List Nat) : Nat := l.foldl nzStep 0

/-- The inductive invariant of the interleaving: current is 0 or equal
to original, and whenever tmpBrightness is non-zero it coincides with
original (tmpBrightness always holds the last observed value). -/
def sysInv (s : BState × Nat) : Prop :=
  (s.1.current = 0 ∨ s.1.current = s.1.original) ∧
    (s.2 ≠ 0 → s.1.original = s.2)

/-- One system step preserves the invariant, and tracks original: a
step observing u updates original to u exactly when u is non-zero,
while a step observing nothing leaves original unchanged. -/
theorem sysStep_preserves (s : BState × Nat) (e : SysEvent)
    (h : sysInv s) :
    sysInv (sysStep s e) ∧
      (sysStep s e).1.original =
        (match obsOf e with
          | none => s.1.original
          | some u => nzStep s.1.original u) := by
  obtain ⟨h1, h2⟩ := h
  cases e with
  | readerActivity =>
    have hr : (readerRestore s.1).1.original = s.1.original ∧
        ((readerRestore s.1).1.current = 0 ∨
          (readerRestore s.1).1.current =
            (readerRestore s.1).1.original) := by
      unfold readerRestore
      split
      · exact ⟨rfl, Or.inr rfl⟩
      · exact ⟨rfl, h1⟩
    refine ⟨⟨hr.2, ?_⟩, hr.1⟩
    intro hne
    rw [show (sysStep s .readerActivity).2 = s.2 from rfl] at hne
    exact hr.1 ▸ h2 hne
  | readerIdle => exact ⟨⟨h1, h2⟩, rfl⟩
  | ctrlFire r =>
    cases r with
    | none =>
      by_cases ht : s.2 = 0
      · constructor
        · constructor
          · simpa [sysStep, controllerFire, ht] using h1
          · simp [sysStep, controllerFire, ht]
        · simp [sysStep, controllerFire, ht, obsOf]
      · constructor
        · constructor
          · simp [sysStep, controllerFire, ht]
          · simp [sysStep, controllerFire, ht]
        · simp only [sysStep, controllerFire, obsOf]
          simp [ht, h2 ht]
    | some u =>
      by_cases hu : u = 0
      · subst hu
        constructor
        · constructor
          · simpa [sysStep, controllerFire] using h1
          · simp [sysStep, controllerFire]
        · simp [sysStep, controllerFire, obsOf, nzStep]
      · constructor
        · constructor
          · simp [sysStep, controllerFire, hu]
          · simp [sysStep, controllerFire, hu]
        · simp [sysStep, controllerFire, obsOf, nzStep, hu]

/-- Folding any trace preserves the invariant and keeps original equal
to the nzStep fold of the observed values. -/
theorem sysFold_inv (tr : List SysEvent) :
    ∀ s : BState × Nat, sysInv s →
      sysInv (tr.foldl sysStep s) ∧
        (tr.foldl sysStep s).1.original =
          (tr.filterMap obsOf).foldl nzStep s.1.original := by
  induction tr with
  | nil => exact fun s h => ⟨h, rfl⟩
  | cons e rest ih =>
    intro s h
    obtain ⟨hstep, horig⟩ := sysStep_preserves s e h
    obtain ⟨hinv, heq⟩ := ih (sysStep s e) hstep
    refine ⟨hinv, ?_⟩
    show (rest.foldl sysStep (sysStep s e)).1.original =
      ((e :: rest).filterMap obsOf).foldl nzStep s.1.original
    rw [heq]
    cases he : obsOf e with
    | none =>
      rw [he] at horig
      rw [List.filterMap_cons_none he, horig]
    | some u =>
      rw [he] at horig
      rw [List.filterMap_cons_some he, List.foldl_cons, horig]

end KbdBacklight

namespace KbdBacklight

/-- C1: along every interleaving of reader and controller steps from
the startup state, currentBrightness_ is either 0 or equal to
originalBrightness_, and originalBrightness_ equals the most recently
observed non-zero control-file value (the startup read when no later
successful fire-time re-read returned a non-zero value). -/
theorem c1_brightness_invariant (v : Nat) (tr : List SysEvent) :
    ((sysRun v tr).1.current = 0 ∨
      (sysRun v tr).1.current = (sysRun v tr).1.original) ∧
    (sysRun v tr).1.original = lastNonZero (obsList v tr) := by
  obtain ⟨hinv, heq⟩ :=
    sysFold_inv tr (⟨v, v⟩, v) ⟨Or.inr rfl, fun _ => rfl⟩
  refine ⟨hinv.1, ?_⟩
  show (tr.foldl sysStep (⟨v, v⟩, v)).1.original = lastNonZero (obsList v tr)
  rw [heq]
  show List.foldl nzStep v (tr.filterMap obsOf) = lastNonZero (obsList v tr)
  unfold lastNonZero obsList
  rw [List.foldl_cons]
  have hz : nzStep 0 v = v := by
    unfold nzStep
    split <;> omega
  rw [hz]

end KbdBacklight
